import Mathlib

/-!
Verification development for the invoice/PO processing engine
(`invoice_processor.py`).  The Python source is shallowly embedded:

* text is `List Char` / `String`; Python's `str.lower` is mapped over
  ASCII characters;
* the ordered regular-expression chains of `parse_invoice_data`,
  `parse_po_data` and `_parse_table_format` are embedded as token lists
  interpreted by a small backtracking matcher (`run` / `reSearch`) with
  Python `re.search` semantics (leftmost start position, greedy /
  lazy repetition, ordered alternation, capture groups);
* `datetime.strptime` restricted to the eight formats used by
  `_parse_date` is embedded directly (`strptimeList`), including the
  regex preferences of the `%d`, `%m`, `%y`, `%Y`, `%b` directives and
  the Gregorian calendar validation performed by `datetime`;
* monetary values (Python floats holding exact decimals in the source's
  data) are embedded as rationals, and Python's `round(x, 2)` as exact
  round-half-to-even at two decimals;
* the Excel workbook is embedded as a `Store` holding the two sheets as
  lists of typed rows plus the error ledger written by `_log_error`.
-/

namespace InvoiceOCR

/-- ASCII lower-casing of one character, the effect of Python's
`str.lower` on the ASCII texts handled by the program. -/
def lowerC (c : Char) : Char :=
  if 65 ≤ c.toNat ∧ c.toNat ≤ 90 then Char.ofNat (c.toNat + 32) else c

/-- Python's `\s` class (ASCII whitespace). -/
def isWs (c : Char) : Bool :=
  c = ' ' || c = '\t' || c = '\n' || c = '\r' || c = '\x0b' || c = '\x0c'

/-- Does `pat` occur at the head of `l` (case-sensitive)?  Used by the
substring test backing Python's `in` operator. -/
def leadMatch : List Char → List Char → Bool
  | [], _ => true
  | _ :: _, [] => false
  | p :: ps, c :: cs => p = c && leadMatch ps cs

/-- Python's `pat in full` on strings: `pat` occurs contiguously in
`full` (the empty pattern occurs in every string). -/
def hasSubstr : List Char → List Char → Bool
  | [], pat => pat.isEmpty
  | c :: rest, pat => leadMatch pat (c :: rest) || hasSubstr rest pat

/-- Python's `str.strip()`: drop leading and trailing whitespace. -/
def pyStrip (l : List Char) : List Char :=
  ((l.dropWhile (fun c => isWs c)).reverse.dropWhile (fun c => isWs c)).reverse

/-- Numeric value of a digit character. -/
def dval (c : Char) : Nat := c.toNat - 48

/-- The ten decimal digit characters, for rendering numbers. -/
def digitChars : List Char := ['0', '1', '2', '3', '4', '5', '6', '7', '8', '9']

/-- The decimal digit character for `n` (`n ≤ 9` in every use). -/
def dChar (n : Nat) : Char := digitChars.getD n '*'

/-- Decimal value of a digit string (used for amounts). -/
def natOfDigits (l : List Char) : Nat := l.foldl (fun a c => a * 10 + dval c) 0

/-! ### Date normalization (`_parse_date`)

`_parse_date` tries `datetime.strptime` on the eight formats
`%d-%b-%y, %d-%b-%Y, %d/%b/%y, %d/%b/%Y, %d-%m-%y, %d-%m-%Y, %d/%m/%y,
%d/%m/%Y` in order and reformats the first success with
`strftime('%d-%b-%Y')`; if none matches it returns the input unchanged.
CPython's `_strptime` compiles each directive to a regex fragment:
`%d ↦ 3[0-1]|[1-2]\d|0[1-9]|[1-9]| [1-9]`, `%m ↦ 1[0-2]|0[1-9]|[1-9]`,
`%y ↦ \d\d`, `%Y ↦ \d\d\d\d`, `%b ↦` the case-insensitive
alternation of the C-locale month abbreviations; the whole input must
be consumed, and the resulting numbers must form a real Gregorian date
(else `ValueError` and the next format is tried).  Two-digit `%y`
years map to 2000–2068 / 1969–1999.  `strftime('%d-%b-%Y')` zero-pads
the day to two digits and renders the year unpadded, as glibc's
`strftime` does (so year 99 prints as `99`). -/

/-- Two-digit numeric field candidate: the two-digit alternatives of a
`strptime` directive, accepting values in `[lo, hi]`. -/
def num2Cand (lo hi : Nat) : List Char → Option (Nat × List Char)
  | c1 :: c2 :: rest =>
    if c1.isDigit && c2.isDigit then
      let v := 10 * dval c1 + dval c2
      if lo ≤ v && v ≤ hi then some (v, rest) else none
    else none
  | _ => none

/-- One-digit numeric field candidate with value in `[lo, hi]`. -/
def num1Cand (lo hi : Nat) : List Char → Option (Nat × List Char)
  | c :: rest =>
    if c.isDigit && lo ≤ dval c && dval c ≤ hi then some (dval c, rest) else none
  | _ => none

/-- The last alternative of `%d`: a space followed by `[1-9]`. -/
def spDayCand : List Char → Option (Nat × List Char)
  | c0 :: c :: rest =>
    if c0 = ' ' && c.isDigit && 1 ≤ dval c && dval c ≤ 9 then some (dval c, rest)
    else none
  | _ => none

/-- Regex candidates for `%d`, in alternation order
(`3[0-1]|[1-2]\d|0[1-9]|[1-9]| [1-9]`): the two-digit alternatives are
exactly the values 1–31 written with two digits, then a single digit
1–9, then a space followed by a digit 1–9. -/
def dayCands (cs : List Char) : List (Nat × List Char) :=
  (num2Cand 1 31 cs).toList ++ (num1Cand 1 9 cs).toList ++ (spDayCand cs).toList

/-- Regex candidates for `%m`. -/
def monCandsNum (cs : List Char) : List (Nat × List Char) :=
  (num2Cand 1 12 cs).toList ++ (num1Cand 1 9 cs).toList

/-- Lower-case C-locale month abbreviations, in month order. -/
def monthNamesLower : List (List Char) :=
  [['j','a','n'], ['f','e','b'], ['m','a','r'], ['a','p','r'],
   ['m','a','y'], ['j','u','n'], ['j','u','l'], ['a','u','g'],
   ['s','e','p'], ['o','c','t'], ['n','o','v'], ['d','e','c']]

/-- Index (from 1) of a lower-cased three-character month abbreviation. -/
def monthIdx (l : List Char) : Option Nat :=
  let rec go : List (List Char) → Nat → Option Nat
    | [], _ => none
    | n :: ns, i => if n = l then some i else go ns (i + 1)
  go monthNamesLower 1

/-- Regex candidate for `%b`: a case-insensitive three-character month
abbreviation (every C-locale abbreviation has three characters). -/
def monCandsAbb : List Char → List (Nat × List Char)
  | a :: b :: c :: rest =>
    match monthIdx [lowerC a, lowerC b, lowerC c] with
    | some m => [(m, rest)]
    | none => []
  | _ => []

/-- CPython's two-digit-year pivot: `%y` values ≤ 68 are 20xx. -/
def yyMap (v : Nat) : Nat := if v ≤ 68 then v + 2000 else v + 1900

/-- Regex candidates for `%y` (exactly `\d\d`), already pivot-mapped. -/
def y2Cands (cs : List Char) : List (Nat × List Char) :=
  ((num2Cand 0 99 cs).toList).map (fun p => (yyMap p.1, p.2))

/-- Exactly `k` digits, accumulating their value onto `acc`. -/
def numKAux : Nat → Nat → List Char → Option (Nat × List Char)
  | 0, acc, rest => some (acc, rest)
  | k + 1, acc, c :: rest =>
    if c.isDigit then numKAux k (acc * 10 + dval c) rest else none
  | _ + 1, _, [] => none

/-- Regex candidates for `%Y` (exactly `\d\d\d\d`). -/
def y4Cands (cs : List Char) : List (Nat × List Char) :=
  (numKAux 4 0 cs).toList

/-- Days in a Gregorian month, as validated by `datetime`. -/
def mdays (y m : Nat) : Nat :=
  if m = 2 then (if y % 4 = 0 ∧ (y % 100 ≠ 0 ∨ y % 400 = 0) then 29 else 28)
  else if m = 4 ∨ m = 6 ∨ m = 9 ∨ m = 11 then 30 else 31

/-- `datetime(y, m, d)` succeeds: a real date with year in 1..9999. -/
def validDateB (y m d : Nat) : Bool :=
  decide (1 ≤ y ∧ y ≤ 9999 ∧ 1 ≤ m ∧ m ≤ 12 ∧ 1 ≤ d ∧ d ≤ mdays y m)

/-- The literal separator of a format: consume `sep` and continue. -/
def sepThen (sep : Char) (k : List Char → Option (Nat × Nat × Nat × List Char)) :
    List Char → Option (Nat × Nat × Nat × List Char)
  | c :: r => if c = sep then k r else none
  | [] => none

/-- The day-separator-month-separator-year regex of one `strptime`
format, with the engine's backtracking order: day candidates in
order, the literal separator, month candidates in order, the literal
separator, then the year's preferred candidate — nothing follows the
year in the pattern, so the year's first candidate is the regex
match. -/
def matchChain (monAbb y4 : Bool) (sep : Char) (cs : List Char) :
    Option (Nat × Nat × Nat × List Char) :=
  (dayCands cs).findSome? fun dc =>
    sepThen sep (fun r1 =>
      (if monAbb then monCandsAbb r1 else monCandsNum r1).findSome? fun mc =>
        sepThen sep (fun r2 =>
          match (if y4 then y4Cands r2 else y2Cands r2).head? with
          | some yc => some (dc.1, mc.1, yc.1, yc.2)
          | none => none) mc.2) dc.2

/-- `datetime.strptime` on one of the eight formats: the regex must
consume the whole input ("unconverted data remains" otherwise) and the
numbers must form a valid date. -/
def strpFmt (monAbb y4 : Bool) (sep : Char) (cs : List Char) :
    Option (Nat × Nat × Nat) :=
  match matchChain monAbb y4 sep cs with
  | some (d, m, y, rest) =>
    if rest = [] ∧ validDateB y m d then some (y, m, d) else none
  | none => none

/-- The eight formats of `_parse_date`, in source order:
(month is `%b`?, year is `%Y`?, separator). -/
def dateFormats : List (Bool × Bool × Char) :=
  [(true, false, '-'), (true, true, '-'), (true, false, '/'), (true, true, '/'),
   (false, false, '-'), (false, true, '-'), (false, false, '/'), (false, true, '/')]

/-- The first format that parses the string, as `(year, month, day)`. -/
def strptimeList (cs : List Char) : Option (Nat × Nat × Nat) :=
  dateFormats.findSome? (fun f => strpFmt f.1 f.2.1 f.2.2 cs)

/-- Two-digit zero-padded rendering (`strftime` `%d`). -/
def pad2 (n : Nat) : List Char := [dChar (n / 10), dChar (n % 10)]

/-- Unpadded decimal rendering of a year ≤ 9999 (`strftime` `%Y` on
glibc). -/
def yearChars (y : Nat) : List Char :=
  if 1000 ≤ y then
    [dChar (y / 1000), dChar (y / 100 % 10), dChar (y / 10 % 10), dChar (y % 10)]
  else if 100 ≤ y then [dChar (y / 100), dChar (y / 10 % 10), dChar (y % 10)]
  else if 10 ≤ y then [dChar (y / 10), dChar (y % 10)]
  else [dChar y]

/-- C-locale month abbreviation (`strftime` `%b`). -/
def monthAbb (m : Nat) : List Char :=
  [['J','a','n'], ['F','e','b'], ['M','a','r'], ['A','p','r'],
   ['M','a','y'], ['J','u','n'], ['J','u','l'], ['A','u','g'],
   ['S','e','p'], ['O','c','t'], ['N','o','v'], ['D','e','c']].getD (m - 1) []

/-- `strftime('%d-%b-%Y')`. -/
def canonicalFmt (y m d : Nat) : List Char :=
  pad2 d ++ '-' :: (monthAbb m ++ '-' :: yearChars y)

/-- `_parse_date` on character lists: reformat the first successful
parse canonically, or return the input unchanged. -/
def parseDateL (cs : List Char) : List Char :=
  match strptimeList cs with
  | some (y, m, d) => canonicalFmt y m d
  | none => cs

/-- `_parse_date`. -/
def parseDate (s : String) : String := String.mk (parseDateL s.toList)

/-! ### Amounts (`_parse_amount`) and Python's `round(x, 2)`

Monetary values are embedded as rationals.  The captured groups fed to
`_parse_amount` match `[0-9,]+\.?\d*`, so after the `.replace(',','')`
the string is digits with at most one dot; `float()` accepts it exactly
when it still contains a digit. -/

/-- Value of a digit string with an optional single decimal point,
`none` when Python's `float()` would raise. -/
def parseFloatQ (l : List Char) : Option ℚ :=
  let intPart := l.takeWhile (fun c => c.isDigit)
  let rest := l.dropWhile (fun c => c.isDigit)
  match rest with
  | [] => if intPart = [] then none else some (natOfDigits intPart)
  | '.' :: fr =>
    if fr.all (fun c => c.isDigit) ∧ (intPart ≠ [] ∨ fr ≠ []) then
      some ((natOfDigits intPart : ℚ) + (natOfDigits fr : ℚ) / (10 ^ fr.length))
    else none
  | _ => none

/-- `_parse_amount`: strip the grouping commas, parse as a decimal
number, `0` on failure. -/
def parseAmountL (l : List Char) : ℚ :=
  match parseFloatQ (l.filter (fun c => c ≠ ',')) with
  | some q => q
  | none => 0

/-- Round-half-to-even to an integer (the rounding Python's `round`
performs). -/
def rhalfEven (q : ℚ) : ℤ :=
  let f := ⌊q⌋
  let r := q - f
  if r < 1 / 2 then f
  else if 1 / 2 < r then f + 1
  else if f % 2 = 0 then f else f + 1

/-- Python's `round(x, 2)` on the exact decimal values of this program. -/
def pyRound2 (q : ℚ) : ℚ := (rhalfEven (q * 100) : ℚ) / 100

/-! ### A small regex engine

Each Python pattern of the source is transcribed to a `List RTok`; the
matcher `run` implements `re` backtracking: literals (case-insensitive,
as every `re.search` of the source passes `re.IGNORECASE`), bounded
greedy or lazy repetition of one-character classes (the only kind of
repetition the source's patterns contain), ordered alternation, capture
groups, and the `MULTILINE` `^` / `$` anchors.  `reSearch` implements
`re.search`: start positions are tried left to right and the capture
groups of the first match are returned. -/

/-- One regex token. -/
inductive RTok where
  /-- A literal string (matched case-insensitively). -/
  | lit : List Char → RTok
  /-- Repetition of a one-character class: predicate, minimum count,
  optional maximum count, and whether the repetition is lazy. -/
  | cls : (Char → Bool) → Nat → Option Nat → Bool → RTok
  /-- Ordered alternation of token sequences. -/
  | alt : List (List RTok) → RTok
  /-- Start of a capture group. -/
  | gopen : RTok
  /-- End of a capture group. -/
  | gclose : RTok
  /-- `^` under `re.MULTILINE`. -/
  | bol : RTok
  /-- `$` under `re.MULTILINE`. -/
  | eol : RTok

/-- Does the literal `s` occur at index `i` of `full`, comparing
case-insensitively? -/
def litAt (full : List Char) : List Char → Nat → Bool
  | [], _ => true
  | c :: cr, i =>
    match full[i]? with
    | some d => lowerC d = lowerC c && litAt full cr (i + 1)
    | none => false

/-- Length of the run of class characters starting at `i`, looking at
most `max` characters ahead. -/
def countRun (p : Char → Bool) (full : List Char) : Nat → Nat → Nat
  | _, 0 => 0
  | i, m + 1 =>
    match full[i]? with
    | some c => if p c then 1 + countRun p full (i + 1) m else 0
    | none => 0

/-- The backtracking matcher.  `stack` holds the start positions of
open capture groups, `caps` the finished captures in group order; a
successful match returns `caps`.  `fuel` only bounds the recursion and
is chosen large enough for every search in this development. -/
def run (full : List Char) : Nat → List RTok → Nat → List Nat →
    List (List Char) → Option (List (List Char))
  | 0, _, _, _, _ => none
  | _ + 1, [], _, _, caps => some caps
  | fuel + 1, .lit s :: rest, i, stack, caps =>
    if litAt full s i then run full fuel rest (i + s.length) stack caps else none
  | fuel + 1, .cls p lo hi lz :: rest, i, stack, caps =>
    let cap := match hi with | some h => h | none => full.length
    let avail := countRun p full i cap
    if avail < lo then none
    else
      let counts := List.range' lo (avail + 1 - lo)
      let counts := if lz then counts else counts.reverse
      counts.findSome? (fun n => run full fuel rest (i + n) stack caps)
  | fuel + 1, .alt bs :: rest, i, stack, caps =>
    bs.findSome? (fun b => run full fuel (b ++ rest) i stack caps)
  | fuel + 1, .gopen :: rest, i, stack, caps =>
    run full fuel rest i (i :: stack) caps
  | fuel + 1, .gclose :: rest, i, stack, caps =>
    match stack with
    | st :: stack2 =>
      run full fuel rest i stack2 (caps ++ [(full.drop st).take (i - st)])
    | [] => none
  | fuel + 1, .bol :: rest, i, stack, caps =>
    if i = 0 || full[i - 1]? = some '\n' then run full fuel rest i stack caps
    else none
  | fuel + 1, .eol :: rest, i, stack, caps =>
    if i = full.length || full[i]? = some '\n' then run full fuel rest i stack caps
    else none

/-- Fuel bound for one anchored match attempt. -/
def reFuel : Nat := 2000000

/-- Try match attempts at positions `i, i+1, …` (`r` positions left). -/
def searchAux (toks : List RTok) (full : List Char) : Nat → Nat →
    Option (List (List Char))
  | _, 0 => none
  | i, r + 1 =>
    match run full reFuel toks i [] [] with
    | some caps => some caps
    | none => searchAux toks full (i + 1) r

/-- `re.search`: the captures of the leftmost match, if any. -/
def reSearch (toks : List RTok) (full : List Char) : Option (List (List Char)) :=
  searchAux toks full 0 (full.length + 1)

/-! ### Token shorthands and character classes -/

/-- Literal token. -/
def tkLit (s : String) : RTok := .lit s.toList

/-- Exactly one class character. -/
def tkOne (p : Char → Bool) : RTok := .cls p 1 (some 1) false

/-- Greedy `*`. -/
def tkStar (p : Char → Bool) : RTok := .cls p 0 none false

/-- Greedy `+`. -/
def tkPlus (p : Char → Bool) : RTok := .cls p 1 none false

/-- Greedy `?`. -/
def tkOpt (p : Char → Bool) : RTok := .cls p 0 (some 1) false

/-- Lazy `*?`. -/
def tkLStar (p : Char → Bool) : RTok := .cls p 0 none true

/-- Greedy `{lo,hi}`. -/
def tkRep (p : Char → Bool) (lo hi : Nat) : RTok := .cls p lo (some hi) false

/-- Lazy `{lo,hi}?`. -/
def tkLRep (p : Char → Bool) (lo hi : Nat) : RTok := .cls p lo (some hi) true

/-- Greedy `{lo,}`. -/
def tkMin (p : Char → Bool) (lo : Nat) : RTok := .cls p lo none false

/-- `[\s\S]`, and `.` under `re.DOTALL`. -/
def cAny (_ : Char) : Bool := true

/-- `.` without `re.DOTALL`. -/
def cDotNoNL (c : Char) : Bool := c ≠ '\n'

/-- `\d`. -/
def cDigit (c : Char) : Bool := c.isDigit

/-- `\w` on the ASCII texts of this program. -/
def cWord (c : Char) : Bool := c.isAlphanum || c = '_'

/-- `[\s|]`. -/
def cWsPipe (c : Char) : Bool := isWs c || c = '|'

/-- `[:\s]`. -/
def cColWs (c : Char) : Bool := c = ':' || isWs c

/-- `[:\s.]`. -/
def cColWsDot (c : Char) : Bool := c = ':' || isWs c || c = '.'

/-- `[\s.]`. -/
def cWsDot (c : Char) : Bool := isWs c || c = '.'

/-- `[A-Z]` under `re.IGNORECASE`. -/
def cAlphaAI (c : Char) : Bool := c.isAlpha

/-- The date separator class, dash or slash. -/
def cDashSlash (c : Char) : Bool := c = '-' || c = '/'

/-- `[\d-]`. -/
def cDigitDash (c : Char) : Bool := c.isDigit || c = '-'

/-- `[0-9,]`. -/
def cDigitComma (c : Char) : Bool := c.isDigit || c = ','

/-- `\.` (as a class operand of `?`). -/
def cDot (c : Char) : Bool := c = '.'

/-- `[Ii]`. -/
def cIi (c : Char) : Bool := c = 'I' || c = 'i'

/-- `[A-Za-z\s]`. -/
def cAlphaWs (c : Char) : Bool := c.isAlpha || isWs c

/-! ### The source's patterns -/

/-- `(\d+)`. -/
def grpDigits : List RTok := [.gopen, tkPlus cDigit, .gclose]

/-- `([A-Z]?\d+)`. -/
def grpInvNum : List RTok := [.gopen, tkOpt cAlphaAI, tkPlus cDigit, .gclose]

/-- `(\d{1,2}[sep]\w+[sep]\d{2,4})` where `[sep]` is the dash-slash class. -/
def grpDateAlpha : List RTok :=
  [.gopen, tkRep cDigit 1 2, tkOne cDashSlash, tkPlus cWord, tkOne cDashSlash,
   tkRep cDigit 2 4, .gclose]

/-- `(\d{1,2}[sep]\d{1,2}[sep]\d{2,4})` where `[sep]` is the dash-slash class. -/
def grpDateNum : List RTok :=
  [.gopen, tkRep cDigit 1 2, tkOne cDashSlash, tkRep cDigit 1 2, tkOne cDashSlash,
   tkRep cDigit 2 4, .gclose]

/-- `([\d-]+[sep]\w+[sep][\d]+)` where `[sep]` is the dash-slash class. -/
def grpTblDate : List RTok :=
  [.gopen, tkPlus cDigitDash, tkOne cDashSlash, tkPlus cWord, tkOne cDashSlash,
   tkPlus cDigit, .gclose]

/-- `([0-9,]+\.?\d*)`. -/
def grpAmount : List RTok :=
  [.gopen, tkPlus cDigitComma, tkOpt cDot, tkStar cDigit, .gclose]

/-- `PO\s*NO[\s|]*PO\s*DATE[\s|]*GR\s*NO[\s|]*GR\s*DATE`. -/
def tblHeaderStar : List RTok :=
  [tkLit "PO", tkStar isWs, tkLit "NO", tkStar cWsPipe, tkLit "PO", tkStar isWs,
   tkLit "DATE", tkStar cWsPipe, tkLit "GR", tkStar isWs, tkLit "NO",
   tkStar cWsPipe, tkLit "GR", tkStar isWs, tkLit "DATE"]

/-- `PO\s*NO[\s|]+PO\s*DATE[\s|]+GR\s*NO[\s|]+GR\s*DATE`. -/
def tblHeaderPlus : List RTok :=
  [tkLit "PO", tkStar isWs, tkLit "NO", tkPlus cWsPipe, tkLit "PO", tkStar isWs,
   tkLit "DATE", tkPlus cWsPipe, tkLit "GR", tkStar isWs, tkLit "NO",
   tkPlus cWsPipe, tkLit "GR", tkStar isWs, tkLit "DATE"]

/-- Table pattern 1 (`re.IGNORECASE | re.DOTALL`). -/
def tableP1 : List RTok :=
  tblHeaderStar ++ [tkLStar cAny, tkLit "\n", tkStar isWs] ++ grpDigits ++
    [tkPlus isWs] ++ grpTblDate ++ [tkStar cWsPipe] ++ grpDigits ++
    [tkPlus isWs] ++ grpTblDate

/-- Table pattern 2. -/
def tableP2 : List RTok :=
  tblHeaderStar ++ [tkLStar cAny, tkLit "\n", tkStar isWs] ++ grpDigits ++
    [tkPlus cWsPipe] ++ grpTblDate ++ [tkPlus cWsPipe] ++ grpDigits ++
    [tkPlus cWsPipe] ++ grpTblDate

/-- Table pattern 3 (`[\s\S]*?` before a ten-digit PO number). -/
def tableP3 : List RTok :=
  tblHeaderPlus ++ [tkLStar cAny, .gopen, tkRep cDigit 10 10, .gclose,
    tkPlus cWsPipe] ++ grpTblDate ++ [tkPlus cWsPipe, .gopen, tkRep cDigit 7 7,
    .gclose, tkPlus cWsPipe] ++ grpTblDate

/-- Table pattern 4 (`PODATE` written without a space). -/
def tableP4 : List RTok :=
  [tkLit "PO", tkStar isWs, tkLit "NO", tkStar cWsPipe, tkLit "PODATE",
   tkStar cWsPipe, tkLit "GR", tkStar isWs, tkLit "NO", tkLStar cAny,
   .gopen, tkRep cDigit 10 10, .gclose, tkPlus isWs] ++ grpTblDate ++
    [tkPlus cWsPipe, .gopen, tkRep cDigit 7 7, .gclose, tkPlus isWs] ++ grpTblDate

/-- The four table patterns in source order. -/
def tablePatterns : List (List RTok) := [tableP1, tableP2, tableP3, tableP4]

/-- The five invoice-number patterns (`re.IGNORECASE | re.MULTILINE`). -/
def invoicePatterns : List (List RTok) :=
  [[tkLit "Invoice", tkStar isWs, tkLit "No", tkStar cColWsDot, tkStar cColWs] ++ grpInvNum,
   [tkLit "Invoice", tkStar isWs, tkLit "#", tkStar cColWs] ++ grpInvNum,
   [tkLit "Inv", tkStar cWsDot, tkLit "No", tkStar cColWsDot, tkStar cColWs] ++ grpInvNum,
   [tkLit "Invoice", tkStar isWs, tkLit "Number", tkStar cColWs] ++ grpInvNum,
   [tkLit "Invoice", tkStar isWs, tkLit "No", tkStar cColWsDot, tkStar isWs, .eol,
    tkLStar cDotNoNL, .bol, tkLStar cDotNoNL, .gopen, tkOpt cAlphaAI,
    tkMin cDigit 4, .gclose]]

/-- The six invoice-date patterns (`re.IGNORECASE`). -/
def datePatterns : List (List RTok) :=
  [[tkLit "Invoice", tkStar isWs, tkLit "Date", tkStar cColWsDot, tkStar cColWs] ++ grpDateAlpha,
   [tkLit "Invoice", tkStar isWs, tkLit "Date", tkStar cColWsDot, tkStar cColWs] ++ grpDateNum,
   [tkOne cIi, tkLit "nvoice", tkRep cAny 0 30, tkLit "Date", tkStar cColWs] ++ grpDateAlpha,
   [tkOne cIi, tkLit "woie", tkRep cAny 0 20, tkLit "Date", tkStar cColWs] ++ grpDateAlpha,
   [tkLit "iavoie", tkRep cAny 0 20, tkLit "Date", tkStar cColWs] ++ grpDateAlpha,
   [tkOne cIi, tkLit "nvoice", tkStar isWs, tkLit "No", tkStar cColWs, tkPlus cDigit,
    tkLRep cAny 0 100] ++ grpDateAlpha]

/-- The four PO-number patterns. -/
def poPatterns : List (List RTok) :=
  [[tkLit "PO", tkStar isWs, tkLit "NO", tkStar cColWsDot, tkStar cColWs] ++ grpDigits,
   [tkLit "PO", tkStar isWs, tkLit "Number", tkStar cColWs] ++ grpDigits,
   [tkLit "P", tkOpt cDot, tkLit "O", tkOpt cDot, tkStar cColWs] ++ grpDigits,
   [tkLit "Purchase", tkStar isWs, tkLit "Order", tkStar cColWs] ++ grpDigits]

/-- The three PO-date patterns. -/
def poDatePatterns : List (List RTok) :=
  [[tkLit "PO", tkStar isWs, tkLit "DATE", tkStar cColWsDot, tkStar cColWs] ++ grpDateAlpha,
   [tkLit "PO", tkStar isWs, tkLit "DATE", tkStar cColWsDot, tkStar cColWs] ++ grpDateNum,
   [tkLit "P", tkOpt cDot, tkLit "O", tkOpt cDot, tkStar isWs, tkLit "Date",
    tkStar cColWs] ++ grpDateAlpha]

/-- The four goods-receipt-number patterns. -/
def grPatterns : List (List RTok) :=
  [[tkLit "GR", tkStar isWs, tkLit "NO", tkStar cColWsDot, tkStar cColWs] ++ grpDigits,
   [tkLit "GR", tkStar isWs, tkLit "Number", tkStar cColWs] ++ grpDigits,
   [tkLit "G", tkOpt cDot, tkLit "R", tkOpt cDot, tkStar cColWs] ++ grpDigits,
   [tkLit "Goods", tkStar isWs, tkLit "Receipt", tkStar cColWs] ++ grpDigits]

/-- The three goods-receipt-date patterns. -/
def grDatePatterns : List (List RTok) :=
  [[tkLit "GR", tkStar isWs, tkLit "DATE", tkStar cColWsDot, tkStar cColWs] ++ grpDateAlpha,
   [tkLit "GR", tkStar isWs, tkLit "DATE", tkStar cColWsDot, tkStar cColWs] ++ grpDateNum,
   [tkLit "G", tkOpt cDot, tkLit "R", tkOpt cDot, tkStar isWs, tkLit "Date",
    tkStar cColWs] ++ grpDateAlpha]

/-- The three subtotal patterns (`re.IGNORECASE | re.MULTILINE`). -/
def totalPatterns : List (List RTok) :=
  [[.alt [[.bol], [tkLit "\n"]], tkStar isWs, tkLit "TOTAL", tkPlus cColWs] ++ grpAmount,
   [tkLit "Sub", tkStar isWs, tkLit "Total", tkPlus cColWs] ++ grpAmount,
   [tkLit "Amount", tkPlus cColWs] ++ grpAmount]

/-- The three tax patterns. -/
def taxPatterns : List (List RTok) :=
  [[.alt [[tkLit "KPRA"], [tkLit "Tax"]], tkStar isWs, tkPlus cDigit, tkLit "%",
    tkPlus cColWs] ++ grpAmount,
   [.alt [[tkLit "KPRA"], [tkLit "Tax"]], tkPlus cColWs] ++ grpAmount,
   [tkLit "VAT", tkStar isWs, tkPlus cDigit, tkLit "%", tkPlus cColWs] ++ grpAmount]

/-- The three grand-total patterns. -/
def grandTotalPatterns : List (List RTok) :=
  [[tkLit "GRAND", tkStar isWs, tkLit "TOTAL", tkPlus cColWs] ++ grpAmount,
   [tkLit "Total", tkStar isWs, tkLit "Amount", tkPlus cColWs] ++ grpAmount,
   [tkLit "Net", tkStar isWs, tkLit "Total", tkPlus cColWs] ++ grpAmount]

/-- `parse_po_data`'s `PO\s*(?:Number|NO)[:\s]+(\d+)`. -/
def poNumPat : List RTok :=
  [tkLit "PO", tkStar isWs, .alt [[tkLit "Number"], [tkLit "NO"]], tkPlus cColWs] ++ grpDigits

/-- `parse_po_data`'s PO-date pattern. -/
def poDatePat : List RTok :=
  [tkLit "PO", tkStar isWs, tkLit "DATE", tkPlus cColWs] ++ grpDateAlpha

/-- `parse_po_data`'s `(?:Amount|Total)[:\s]+([0-9,]+\.?\d*)`. -/
def poAmountPat : List RTok :=
  [.alt [[tkLit "Amount"], [tkLit "Total"]], tkPlus cColWs] ++ grpAmount

/-- `parse_po_data`'s `Department[:\s]+([A-Za-z\s]+)`. -/
def deptPat : List RTok :=
  [tkLit "Department", tkPlus cColWs, .gopen, tkPlus cAlphaWs, .gclose]

/-! ### Field maps, records and the workbook -/

/-- The optional-field dictionary built by `parse_invoice_data`
(`data`); an absent key is `none`. -/
structure ParseData where
  invoice_number : Option String := none
  invoice_date : Option String := none
  po_number : Option String := none
  po_date : Option String := none
  gr_id : Option String := none
  gr_date : Option String := none
  subtotal : Option ℚ := none
  tax : Option ℚ := none
  grand_total : Option ℚ := none
  status : Option String := none
  deriving DecidableEq, Repr

/-- The empty dictionary. -/
def emptyPD : ParseData := {}

/-- The optional-field dictionary built by `parse_po_data`. -/
structure PoData where
  po_number : Option String := none
  po_date : Option String := none
  po_amount : Option ℚ := none
  department : Option String := none
  deriving DecidableEq, Repr

/-- One row of the `PO_Details` sheet (after the header). -/
structure PORow where
  serial : Nat
  po_number : String
  po_date : String
  po_amount : ℚ
  department : String
  deriving DecidableEq, Repr

/-- One row of the `Invoice_Details` sheet (after the header). -/
structure InvRow where
  serial : Nat
  invoice_number : String
  invoice_date : String
  po_number : String
  po_date : String
  department : String
  gr_id : String
  gr_date : String
  subtotal : ℚ
  tax : ℚ
  grand_total : ℚ
  status : String
  deriving DecidableEq, Repr

/-- The workbook plus the error ledger written by `_log_error`. -/
structure Store where
  po : List PORow
  inv : List InvRow
  errors : List String
  deriving DecidableEq, Repr

/-- A fresh workbook: both sheets hold only their header row. -/
def startStore : Store := ⟨[], [], []⟩

/-! ### Field extraction (`_parse_table_format`, `parse_invoice_data`,
`parse_po_data`) -/

/-- Group 1 of the first pattern in the chain that matches, the
first-hit-wins priority chain of the source. -/
def g1 (pats : List (List RTok)) (cs : List Char) : Option (List Char) :=
  (pats.findSome? (fun p => reSearch p cs)).bind List.head?

/-- `_parse_table_format`: the four captures of the first table pattern
that matches, stripped, with the two dates normalized. -/
def parseTableFormat (cs : List Char) :
    Option (String × String × String × String) :=
  match tablePatterns.findSome? (fun p => reSearch p cs) with
  | some (a :: b :: c :: d :: _) =>
    some (String.mk (pyStrip a), String.mk (parseDateL (pyStrip b)),
      String.mk (pyStrip c), String.mk (parseDateL (pyStrip d)))
  | _ => none

/-- The extraction part of `parse_invoice_data` (everything before the
tax/total derivation): the tabular sub-extractor first, then each
field's chain, the four table fields only when the table did not
already supply them. -/
def extractInvoiceFields (cs : List Char) : ParseData :=
  let base : ParseData :=
    match parseTableFormat cs with
    | some (pn, pd, gi, gd) =>
      { emptyPD with
        po_number := some pn
        po_date := some pd
        gr_id := some gi
        gr_date := some gd }
    | none => emptyPD
  let base := { base with invoice_number := (g1 invoicePatterns cs).map String.mk }
  let base := { base with
    invoice_date := (g1 datePatterns cs).map (fun g => String.mk (parseDateL g)) }
  let base := if base.po_number.isNone then
      { base with po_number := (g1 poPatterns cs).map String.mk } else base
  let base := if base.po_date.isNone then
      { base with po_date := (g1 poDatePatterns cs).map (fun g => String.mk (parseDateL g)) }
    else base
  let base := if base.gr_id.isNone then
      { base with gr_id := (g1 grPatterns cs).map String.mk } else base
  let base := if base.gr_date.isNone then
      { base with gr_date := (g1 grDatePatterns cs).map (fun g => String.mk (parseDateL g)) }
    else base
  let base := { base with subtotal := (g1 totalPatterns cs).map parseAmountL }
  let base := { base with tax := (g1 taxPatterns cs).map parseAmountL }
  { base with grand_total := (g1 grandTotalPatterns cs).map parseAmountL }

/-- The derivation and defaulting step of `parse_invoice_data` (source
lines 328–338): a 12% tax when the subtotal is present and no tax was
extracted, then the grand total from the possibly-just-derived tax, and
the `UnPaid` status. -/
def applyDerivation (d : ParseData) : ParseData :=
  let d := if d.subtotal.isSome ∧ d.tax.isNone then
      { d with tax := some (pyRound2 (d.subtotal.getD 0 * (12 / 100))) } else d
  let d := if d.subtotal.isSome ∧ d.grand_total.isNone then
      { d with grand_total := some (d.subtotal.getD 0 + d.tax.getD 0) } else d
  { d with status := some "UnPaid" }

/-- `parse_invoice_data`: extraction, then derivation, then
`return data if data else None`. -/
def parseInvoiceData (text : String) : Option ParseData :=
  let d := applyDerivation (extractInvoiceFields text.toList)
  if d = emptyPD then none else some d

/-- `parse_po_data`: the four single patterns, a department default of
`"N/A"`, and `return data if 'po_number' in data else None`. -/
def parsePoData (text : String) : Option PoData :=
  let cs := text.toList
  let pn := (reSearch poNumPat cs).bind List.head?
  let pd := ((reSearch poDatePat cs).bind List.head?).map
    (fun g => String.mk (parseDateL g))
  let am := ((reSearch poAmountPat cs).bind List.head?).map parseAmountL
  let dept :=
    match (reSearch deptPat cs).bind List.head? with
    | some g => String.mk (pyStrip g)
    | none => "N/A"
  let d : PoData := ⟨pn.map String.mk, pd, am, some dept⟩
  if d.po_number.isSome then some d else none

/-! ### The record store / linker -/

/-- `_get_next_serial_number`, as a function of the number of record
rows: the sheet has `numRecords + 1` rows counting the header, and the
function returns 1 when only the header exists, else `max_row`. -/
def getNextSerialNumber (numRecords : Nat) : Nat :=
  let maxRow := numRecords + 1
  if maxRow = 1 then 1 else maxRow

/-- `_lookup_po_details`: the PO date and department of the first
`PO_Details` row whose PO number matches. -/
def lookupPoDetails (pos : List PORow) (pn : String) :
    Option String × Option String :=
  match pos.find? (fun r => r.po_number = pn) with
  | some r => (some r.po_date, some r.department)
  | none => (none, none)

/-- `_invoice_exists`: linear scan of `Invoice_Details`. -/
def invoiceExists (rows : List InvRow) (invNo : String) : Bool :=
  rows.any (fun r => r.invoice_number = invNo)

/-- `add_po_record`: unconditionally append a PO row with the next
serial and the dictionary's values (amount 0 and department `"N/A"`
when absent). -/
def addPoRecord (s : Store) (d : PoData) : Store :=
  let serial := getNextSerialNumber s.po.length
  let row : PORow :=
    ⟨serial, d.po_number.getD "", d.po_date.getD "", d.po_amount.getD 0,
      d.department.getD "N/A"⟩
  { s with po := s.po ++ [row] }

/-- Python's truthiness test `not x` on an optional string. -/
def falsyS : Option String → Bool
  | none => true
  | some t => t = ""

/-- Python's `x or dflt` on an optional string. -/
def orElseStr (o : Option String) (dflt : String) : String :=
  match o with
  | some t => if t = "" then dflt else t
  | none => dflt

/-- The PO-resolution block of `add_invoice_record` (source lines
462–480): when the invoice carries a PO number, look it up; when the
looked-up PO date is falsy, auto-create a stub PO from the invoice's
own data and look it up again.  Returns the possibly-extended store and
the two looked-up values. -/
def resolvePo (s : Store) (d : ParseData) (pn : String) :
    Store × Option String × Option String :=
  if pn ≠ "" then
    let lk := lookupPoDetails s.po pn
    if falsyS lk.1 then
      let s' := addPoRecord s
        ⟨some pn, some (d.po_date.getD ""), some 0, some "N/A"⟩
      (s', (lookupPoDetails s'.po pn).1, (lookupPoDetails s'.po pn).2)
    else (s, lk.1, lk.2)
  else (s, none, none)

/-- `add_invoice_record`: the dedup gate on a non-empty invoice number,
then PO resolution with auto-creation, then the append of the
denormalized row. -/
def addInvoiceRecord (s : Store) (d : ParseData) : Store :=
  let inv_no := d.invoice_number.getD ""
  if inv_no ≠ "" ∧ invoiceExists s.inv inv_no then s
  else
    let serial := getNextSerialNumber s.inv.length
    let pn := d.po_number.getD ""
    let r := resolvePo s d pn
    let po_date := orElseStr r.2.1 (d.po_date.getD "")
    let department := orElseStr r.2.2 "N/A"
    let row : InvRow :=
      ⟨serial, d.invoice_number.getD "", d.invoice_date.getD "", pn, po_date,
        department, d.gr_id.getD "", d.gr_date.getD "", d.subtotal.getD 0,
        d.tax.getD 0, d.grand_total.getD 0, d.status.getD "UnPaid"⟩
    { r.1 with inv := r.1.inv ++ [row] }

/-! ### Classification and per-document control flow (`process_file`) -/

/-- The classification outcome. -/
inductive DocType where
  | Invoice
  | PurchaseOrder
  | Unknown
  deriving DecidableEq, Repr

/-- The classifier of `process_file`: Invoice when the lowered text
contains both `'invoice'` and `'invoice no'`; else PurchaseOrder when
it contains `'purchase order'`, or `'po no'` without `'invoice'`; else
Unknown. -/
def classifyDoc (text : String) : DocType :=
  let lt := text.toList.map lowerC
  if hasSubstr lt "invoice".toList && hasSubstr lt "invoice no".toList then
    .Invoice
  else if hasSubstr lt "purchase order".toList ||
      (hasSubstr lt "po no".toList && !hasSubstr lt "invoice".toList) then
    .PurchaseOrder
  else .Unknown

/-- The classify-parse-insert part of `process_file` on already
extracted text: parse failures and unknown documents append to the
error ledger and leave the sheets alone. -/
def processText (s : Store) (text : String) : Store :=
  match classifyDoc text with
  | .Invoice =>
    match parseInvoiceData text with
    | some d => addInvoiceRecord s d
    | none => { s with errors := s.errors ++ ["Failed to parse invoice data"] }
  | .PurchaseOrder =>
    match parsePoData text with
    | some d => addPoRecord s d
    | none => { s with errors := s.errors ++ ["Failed to parse PO data"] }
  | .Unknown => { s with errors := s.errors ++ ["Unknown document type"] }

/-- One ingested document, for reasoning about batches. -/
inductive Op where
  | po : PoData → Op
  | inv : ParseData → Op

/-- Apply one insert operation to the store. -/
def applyOp (s : Store) : Op → Store
  | .po d => addPoRecord s d
  | .inv d => addInvoiceRecord s d

/-- A batch of inserts starting from `s`. -/
def runOps (s : Store) (ops : List Op) : Store := ops.foldl applyOp s

/-- A serial column is coherent: strictly increasing, and bounded by
the number of rows (so the next append, `length + 1`, exceeds each). -/
def SerialsOK (l : List Nat) : Prop :=
  l.Pairwise (· < ·) ∧ ∀ x ∈ l, x ≤ l.length

/-- Both serial columns of the store are coherent. -/
def StoreOK (s : Store) : Prop :=
  SerialsOK (s.po.map PORow.serial) ∧ SerialsOK (s.inv.map InvRow.serial)

/-! ### Helper lemmas about the store operations -/

lemma getNextSerialNumber_eq (n : Nat) : getNextSerialNumber n = n + 1 := by
  show (if n + 1 = 1 then 1 else n + 1) = n + 1
  split <;> omega

lemma addPoRecord_inv (s : Store) (d : PoData) : (addPoRecord s d).inv = s.inv := rfl

lemma addPoRecord_err (s : Store) (d : PoData) :
    (addPoRecord s d).errors = s.errors := rfl

lemma addPoRecord_po (s : Store) (d : PoData) :
    (addPoRecord s d).po = s.po ++
      [⟨getNextSerialNumber s.po.length, d.po_number.getD "", d.po_date.getD "",
        d.po_amount.getD 0, d.department.getD "N/A"⟩] := rfl

lemma resolvePo_inv (s : Store) (d : ParseData) (pn : String) :
    (resolvePo s d pn).1.inv = s.inv := by
  simp only [resolvePo, addPoRecord]
  split_ifs <;> rfl

lemma resolvePo_err (s : Store) (d : ParseData) (pn : String) :
    (resolvePo s d pn).1.errors = s.errors := by
  simp only [resolvePo, addPoRecord]
  split_ifs <;> rfl

/-- In every branch of `resolvePo` the PO sheet is either untouched or
extended by exactly the stub row. -/
lemma resolvePo_po (s : Store) (d : ParseData) (pn : String) :
    (resolvePo s d pn).1.po = s.po ∨
      (resolvePo s d pn).1.po =
        s.po ++ [⟨getNextSerialNumber s.po.length, pn, d.po_date.getD "", 0, "N/A"⟩] := by
  simp only [resolvePo, addPoRecord]
  split_ifs <;> first
    | exact Or.inl rfl
    | exact Or.inr rfl

/-- The shape of a non-deduplicated `add_invoice_record`: the invoice
sheet gains exactly one row built from the dictionary and the resolved
PO fields. -/
lemma addInvoiceRecord_append (s : Store) (d : ParseData)
    (hnd : ¬(d.invoice_number.getD "" ≠ "" ∧
      invoiceExists s.inv (d.invoice_number.getD "") = true)) :
    addInvoiceRecord s d =
      { po := (resolvePo s d (d.po_number.getD "")).1.po
        inv := s.inv ++
          [⟨getNextSerialNumber s.inv.length, d.invoice_number.getD "",
            d.invoice_date.getD "", d.po_number.getD "",
            orElseStr (resolvePo s d (d.po_number.getD "")).2.1 (d.po_date.getD ""),
            orElseStr (resolvePo s d (d.po_number.getD "")).2.2 "N/A",
            d.gr_id.getD "", d.gr_date.getD "", d.subtotal.getD 0, d.tax.getD 0,
            d.grand_total.getD 0, d.status.getD "UnPaid"⟩]
        errors := s.errors } := by
  simp only [addInvoiceRecord]
  rw [if_neg hnd]
  rw [Store.mk.injEq]
  exact ⟨rfl, by rw [resolvePo_inv], by rw [resolvePo_err]⟩

/-! ### Theorems for the claims -/

lemma addInvoiceRecord_dup (s : Store) (d : ParseData)
    (h1 : d.invoice_number.getD "" ≠ "")
    (h2 : invoiceExists s.inv (d.invoice_number.getD "") = true) :
    addInvoiceRecord s d = s := by
  unfold addInvoiceRecord
  rw [if_pos ⟨h1, h2⟩]

/-- Claim C1: inserting an invoice whose non-empty `invoice_number`
already occurs in `Invoice_Details` is a complete no-op on the store
(both sheets and the error ledger are unchanged). -/
theorem dedup_second_insert_noop (s : Store) (d : ParseData)
    (h1 : d.invoice_number.getD "" ≠ "")
    (h2 : invoiceExists s.inv (d.invoice_number.getD "") = true) :
    addInvoiceRecord s d = s :=
  addInvoiceRecord_dup s d h1 h2

/-- Witness for C1 at a concrete store holding invoice `I1`. -/
theorem dedup_second_insert_noop_witness :
    addInvoiceRecord
      ⟨[], [⟨1, "I1", "", "", "", "N/A", "", "", 0, 0, 0, "UnPaid"⟩], []⟩
      { invoice_number := some "I1" } =
      ⟨[], [⟨1, "I1", "", "", "", "N/A", "", "", 0, 0, 0, "UnPaid"⟩], []⟩ :=
  dedup_second_insert_noop _ _ (by decide) (by decide)

/-- Claim C10: the dedup gate does not apply to an empty or absent
invoice number — the insert always appends one more row whose stored
invoice number is empty, so repeating it stacks up further such rows. -/
theorem empty_invoice_number_always_appends (s : Store) (d : ParseData)
    (h : d.invoice_number.getD "" = "") :
    (addInvoiceRecord s d).inv.map InvRow.invoice_number =
        s.inv.map InvRow.invoice_number ++ [""] ∧
      (addInvoiceRecord s d).inv.length = s.inv.length + 1 ∧
      (addInvoiceRecord (addInvoiceRecord s d) d).inv.map InvRow.invoice_number =
        s.inv.map InvRow.invoice_number ++ ["", ""] := by
  have hnd : ∀ s' : Store, ¬(d.invoice_number.getD "" ≠ "" ∧
      invoiceExists s'.inv (d.invoice_number.getD "") = true) := by
    intro s' hc
    exact hc.1 h
  have h1 := addInvoiceRecord_append s d (hnd s)
  have h2 := addInvoiceRecord_append (addInvoiceRecord s d) d (hnd _)
  refine ⟨?_, ?_, ?_⟩
  · rw [h1]
    simp [h]
  · rw [h1]
    simp
  · rw [h2, h1]
    simp [h]

/-- Witness for C10: two inserts of an empty-numbered invoice into the
fresh store leave two rows with empty invoice numbers. -/
theorem empty_invoice_number_always_appends_witness :
    (addInvoiceRecord startStore emptyPD).inv.map InvRow.invoice_number =
        startStore.inv.map InvRow.invoice_number ++ [""] ∧
      (addInvoiceRecord startStore emptyPD).inv.length = startStore.inv.length + 1 ∧
      (addInvoiceRecord (addInvoiceRecord startStore emptyPD) emptyPD).inv.map
          InvRow.invoice_number =
        startStore.inv.map InvRow.invoice_number ++ ["", ""] :=
  empty_invoice_number_always_appends startStore emptyPD rfl

lemma serialsOK_nil : SerialsOK [] := ⟨List.Pairwise.nil, by simp⟩

lemma serialsOK_append {l : List Nat} (h : SerialsOK l) :
    SerialsOK (l ++ [l.length + 1]) := by
  constructor
  · rw [List.pairwise_append]
    refine ⟨h.1, List.pairwise_singleton _ _, ?_⟩
    intro a ha b hb
    have hb2 : b = l.length + 1 := by simpa using hb
    have := h.2 a ha
    omega
  · intro x hx
    rcases List.mem_append.1 hx with hx1 | hx2
    · have := h.2 x hx1
      simp only [List.length_append, List.length_singleton]
      omega
    · have hx3 : x = l.length + 1 := by simpa using hx2
      simp only [List.length_append, List.length_singleton]
      omega

lemma addPoRecord_storeOK {s : Store} (d : PoData) (h : StoreOK s) :
    StoreOK (addPoRecord s d) := by
  constructor
  · rw [addPoRecord_po]
    have : (s.po ++ [(⟨getNextSerialNumber s.po.length, d.po_number.getD "",
        d.po_date.getD "", d.po_amount.getD 0, d.department.getD "N/A"⟩ : PORow)]).map
        PORow.serial = s.po.map PORow.serial ++ [(s.po.map PORow.serial).length + 1] := by
      simp [getNextSerialNumber_eq]
    rw [this]
    exact serialsOK_append h.1
  · rw [addPoRecord_inv]
    exact h.2

lemma addInvoiceRecord_storeOK {s : Store} (d : ParseData) (h : StoreOK s) :
    StoreOK (addInvoiceRecord s d) := by
  by_cases hdup : d.invoice_number.getD "" ≠ "" ∧
      invoiceExists s.inv (d.invoice_number.getD "") = true
  · rw [addInvoiceRecord_dup s d hdup.1 hdup.2]
    exact h
  · rw [addInvoiceRecord_append s d hdup]
    constructor
    · rcases resolvePo_po s d (d.po_number.getD "") with hp | hp <;> rw [hp]
      · exact h.1
      · have : (s.po ++ [(⟨getNextSerialNumber s.po.length, d.po_number.getD "",
            d.po_date.getD "", 0, "N/A"⟩ : PORow)]).map PORow.serial =
            s.po.map PORow.serial ++ [(s.po.map PORow.serial).length + 1] := by
          simp [getNextSerialNumber_eq]
        rw [this]
        exact serialsOK_append h.1
    · have : (s.inv ++ [(⟨getNextSerialNumber s.inv.length, d.invoice_number.getD "",
          d.invoice_date.getD "", d.po_number.getD "",
          orElseStr (resolvePo s d (d.po_number.getD "")).2.1 (d.po_date.getD ""),
          orElseStr (resolvePo s d (d.po_number.getD "")).2.2 "N/A",
          d.gr_id.getD "", d.gr_date.getD "", d.subtotal.getD 0, d.tax.getD 0,
          d.grand_total.getD 0, d.status.getD "UnPaid"⟩ : InvRow)]).map InvRow.serial =
          s.inv.map InvRow.serial ++ [(s.inv.map InvRow.serial).length + 1] := by
        simp [getNextSerialNumber_eq]
      rw [this]
      exact serialsOK_append h.2

lemma runOps_storeOK (ops : List Op) : ∀ s : Store, StoreOK s → StoreOK (runOps s ops) := by
  induction ops with
  | nil => exact fun s h => h
  | cons op rest ih =>
    intro s h
    cases op with
    | po d => exact ih _ (addPoRecord_storeOK d h)
    | inv d => exact ih _ (addInvoiceRecord_storeOK d h)

/-- Claim C7: `next_serial` is 1 on an empty collection and count + 1
otherwise, and consequently, over any batch of inserts into the fresh
store, the serials of each sheet are pairwise distinct and strictly
increasing in insertion order. -/
theorem next_serial_spec_and_monotone :
    (∀ n : Nat, getNextSerialNumber n = if n = 0 then 1 else n + 1) ∧
    ∀ ops : List Op,
      ((runOps startStore ops).po.map PORow.serial).Pairwise (· < ·) ∧
      ((runOps startStore ops).po.map PORow.serial).Nodup ∧
      ((runOps startStore ops).inv.map InvRow.serial).Pairwise (· < ·) ∧
      ((runOps startStore ops).inv.map InvRow.serial).Nodup := by
  constructor
  · intro n
    rw [getNextSerialNumber_eq]
    split <;> omega
  · intro ops
    have h := runOps_storeOK ops startStore ⟨serialsOK_nil, serialsOK_nil⟩
    exact ⟨h.1.1, h.1.1.imp Nat.ne_of_lt, h.2.1, h.2.1.imp Nat.ne_of_lt⟩

lemma find?_append_of_none {α : Type} (p : α → Bool) {l1 : List α} (l2 : List α)
    (h : l1.find? p = none) : (l1 ++ l2).find? p = l2.find? p := by
  induction l1 with
  | nil => rfl
  | cons a t ih =>
    rw [List.cons_append]
    cases hp : p a
    · rw [List.find?_cons_of_neg _ (by simp [hp])] at h ⊢
      exact ih h
    · rw [List.find?_cons_of_pos _ hp] at h
      exact absurd h (by simp)

lemma orElseStr_some_self (t : String) : orElseStr (some t) t = t := by
  unfold orElseStr
  split <;> simp_all

lemma orElseStr_some_ne (t dflt : String) (h : t ≠ "") : orElseStr (some t) dflt = t := by
  unfold orElseStr
  split <;> simp_all

/-- When the PO number is unknown, `resolvePo` adds exactly the stub
and reports the stub's date and `"N/A"` department. -/
lemma resolvePo_nomatch (s : Store) (d : ParseData) (pn : String) (hne : pn ≠ "")
    (hnomatch : s.po.find? (fun r => r.po_number = pn) = none) :
    resolvePo s d pn =
      (addPoRecord s ⟨some pn, some (d.po_date.getD ""), some 0, some "N/A"⟩,
        some (d.po_date.getD ""), some "N/A") := by
  have hlk : lookupPoDetails s.po pn = (none, none) := by
    simp [lookupPoDetails, hnomatch]
  have hlk2 : lookupPoDetails (addPoRecord s
      ⟨some pn, some (d.po_date.getD ""), some 0, some "N/A"⟩).po pn =
      (some (d.po_date.getD ""), some "N/A") := by
    rw [addPoRecord_po]
    unfold lookupPoDetails
    rw [find?_append_of_none _ _ hnomatch]
    simp [List.find?]
  simp only [resolvePo]
  rw [if_pos hne, hlk]
  simp [falsyS, hlk2]

/-- Claim C2: inserting an invoice carrying a non-empty PO number with
no match in `PO_Details` auto-creates exactly one stub PO (amount 0,
department `"N/A"`, date copied from the invoice's own extracted PO
date), the inserted invoice row carries the stub's department and date,
and afterwards a PO with that number exists. -/
theorem unknown_po_autocreates_stub (s : Store) (d : ParseData) (pn : String)
    (hpn : d.po_number = some pn) (hne : pn ≠ "")
    (hnomatch : s.po.find? (fun r => r.po_number = pn) = none)
    (hnd : ¬(d.invoice_number.getD "" ≠ "" ∧
      invoiceExists s.inv (d.invoice_number.getD "") = true)) :
    (addInvoiceRecord s d).po =
        s.po ++ [⟨getNextSerialNumber s.po.length, pn, d.po_date.getD "", 0, "N/A"⟩] ∧
      (∃ row : InvRow, (addInvoiceRecord s d).inv = s.inv ++ [row] ∧
        row.department = "N/A" ∧ row.po_date = d.po_date.getD "") ∧
      (addInvoiceRecord s d).po.any (fun r => r.po_number = pn) = true := by
  have hg : d.po_number.getD "" = pn := by rw [hpn]; rfl
  have hres := resolvePo_nomatch s d pn hne hnomatch
  have happ := addInvoiceRecord_append s d hnd
  rw [hg] at happ
  have hpo : (addInvoiceRecord s d).po =
      s.po ++ [⟨getNextSerialNumber s.po.length, pn, d.po_date.getD "", 0, "N/A"⟩] := by
    rw [happ]
    show (resolvePo s d pn).1.po = _
    rw [hres, addPoRecord_po]
    rfl
  refine ⟨hpo, ⟨_, by rw [happ], ?_, ?_⟩, ?_⟩
  · show orElseStr (resolvePo s d pn).2.2 "N/A" = "N/A"
    rw [hres]
    simp [orElseStr]
  · show orElseStr (resolvePo s d pn).2.1 (d.po_date.getD "") = d.po_date.getD ""
    rw [hres]
    exact orElseStr_some_self _
  · rw [hpo]
    simp

/-- Witness for C2: a fresh store, an invoice with PO number `77`. -/
theorem unknown_po_autocreates_stub_witness :
    (addInvoiceRecord startStore
        { invoice_number := some "I1", po_number := some "77" }).po =
        startStore.po ++ [⟨getNextSerialNumber startStore.po.length, "77", "", 0, "N/A"⟩] ∧
      (∃ row : InvRow, (addInvoiceRecord startStore
          { invoice_number := some "I1", po_number := some "77" }).inv =
          startStore.inv ++ [row] ∧
        row.department = "N/A" ∧ row.po_date = "") ∧
      (addInvoiceRecord startStore
          { invoice_number := some "I1", po_number := some "77" }).po.any
        (fun r => r.po_number = "77") = true :=
  unknown_po_autocreates_stub startStore
    { invoice_number := some "I1", po_number := some "77" } "77"
    rfl (by decide) rfl (by decide)

set_option maxRecDepth 1000000 in
/-- Claim C3 as written is false: an existing matching PO whose stored
`po_date` is empty is falsy for the `if not po_date_from_sheet` test,
so `add_invoice_record` auto-creates a duplicate stub even though a PO
with that number already exists — the PO collection is NOT unchanged. -/
theorem existing_po_counterexample :
    ((⟨[⟨1, "9999", "", 500, "Finance"⟩], [], []⟩ : Store).po.find?
        (fun r => r.po_number = "9999")).isSome = true ∧
      (addInvoiceRecord ⟨[⟨1, "9999", "", 500, "Finance"⟩], [], []⟩
          { invoice_number := some "I1", po_number := some "9999" }).po ≠
        (⟨[⟨1, "9999", "", 500, "Finance"⟩], [], []⟩ : Store).po := by
  with_unfolding_all decide

/-- Claim C3, amended: when the first matching PO's stored `po_date` is
non-empty, no PO row is appended and the inserted invoice takes its
`po_date` from that PO and its `department` from that PO when non-empty
(else `"N/A"`). -/
theorem existing_po_is_reused (s : Store) (d : ParseData) (pn : String) (r0 : PORow)
    (hpn : d.po_number = some pn) (hne : pn ≠ "")
    (hfind : s.po.find? (fun r => r.po_number = pn) = some r0)
    (hpd : r0.po_date ≠ "")
    (hnd : ¬(d.invoice_number.getD "" ≠ "" ∧
      invoiceExists s.inv (d.invoice_number.getD "") = true)) :
    (addInvoiceRecord s d).po = s.po ∧
      ∃ row : InvRow, (addInvoiceRecord s d).inv = s.inv ++ [row] ∧
        row.po_date = r0.po_date ∧
        row.department = (if r0.department = "" then "N/A" else r0.department) := by
  have hg : d.po_number.getD "" = pn := by rw [hpn]; rfl
  have hres : resolvePo s d pn = (s, some r0.po_date, some r0.department) := by
    have hlk : lookupPoDetails s.po pn = (some r0.po_date, some r0.department) := by
      simp [lookupPoDetails, hfind]
    simp only [resolvePo]
    rw [if_pos hne, hlk]
    simp only [falsyS]
    rw [if_neg (by simpa using hpd)]
  have happ := addInvoiceRecord_append s d hnd
  rw [hg] at happ
  refine ⟨?_, _, by rw [happ], ?_, ?_⟩
  · rw [happ]
    show (resolvePo s d pn).1.po = s.po
    rw [hres]
  · show orElseStr (resolvePo s d pn).2.1 (d.po_date.getD "") = r0.po_date
    rw [hres]
    exact orElseStr_some_ne _ _ hpd
  · show orElseStr (resolvePo s d pn).2.2 "N/A" =
      if r0.department = "" then "N/A" else r0.department
    rw [hres]
    rfl

/-- Witness for amended C3, the spec's own example: PO `9999` with
department `Finance` exists, so the inserted invoice's department is
`Finance`, not `"N/A"`, and no stub is created. -/
theorem existing_po_is_reused_witness :
    (addInvoiceRecord ⟨[⟨1, "9999", "02-Jan-2024", 500, "Finance"⟩], [], []⟩
        { invoice_number := some "I2", po_number := some "9999" }).po =
        (⟨[⟨1, "9999", "02-Jan-2024", 500, "Finance"⟩], [], []⟩ : Store).po ∧
      ∃ row : InvRow,
        (addInvoiceRecord ⟨[⟨1, "9999", "02-Jan-2024", 500, "Finance"⟩], [], []⟩
            { invoice_number := some "I2", po_number := some "9999" }).inv =
          (⟨[⟨1, "9999", "02-Jan-2024", 500, "Finance"⟩], [], []⟩ : Store).inv ++ [row] ∧
        row.po_date = "02-Jan-2024" ∧
        row.department = (if "Finance" = "" then "N/A" else "Finance") :=
  existing_po_is_reused _ _ "9999" ⟨1, "9999", "02-Jan-2024", 500, "Finance"⟩
    rfl (by decide) rfl (by decide) (by decide)

/-- Claim C4: with a subtotal `S` and neither tax nor grand total
extracted, the derivation step produces `tax = round(S * 0.12, 2)`,
`grand_total = S + tax` using the just-derived tax, and an `UnPaid`
status when none was present. -/
theorem derive_tax_total_status (d : ParseData) (S : ℚ)
    (hs : d.subtotal = some S) (ht : d.tax = none) (hg : d.grand_total = none)
    (_hst : d.status = none) :
    (applyDerivation d).tax = some (pyRound2 (S * (12 / 100))) ∧
      (applyDerivation d).grand_total = some (S + pyRound2 (S * (12 / 100))) ∧
      (applyDerivation d).status = some "UnPaid" := by
  unfold applyDerivation
  simp [hs, ht, hg]

/-- Witness for C4 at subtotal 100. -/
theorem derive_tax_total_status_witness :
    (applyDerivation { subtotal := some 100 }).tax =
        some (pyRound2 (100 * (12 / 100))) ∧
      (applyDerivation { subtotal := some 100 }).grand_total =
        some (100 + pyRound2 (100 * (12 / 100))) ∧
      (applyDerivation { subtotal := some 100 }).status = some "UnPaid" :=
  derive_tax_total_status { subtotal := some 100 } 100 rfl rfl rfl rfl

/-- Claim C5: any text containing (case-insensitively) both the
invoice phrase and the invoice-number phrase classifies as Invoice,
whatever purchase-order phrases it also contains — the Invoice check
runs first. -/
theorem invoice_classification_priority (text : String)
    (h1 : hasSubstr (text.toList.map lowerC) "invoice".toList = true)
    (h2 : hasSubstr (text.toList.map lowerC) "invoice no".toList = true) :
    classifyDoc text = DocType.Invoice := by
  simp only [classifyDoc]
  rw [h1, h2]
  rfl

/-- Witness for C5: a text carrying both invoice phrases and both PO
phrases is still an Invoice. -/
theorem invoice_classification_priority_witness :
    classifyDoc "Invoice No: 123 for purchase order PO NO: 99" = DocType.Invoice :=
  invoice_classification_priority _ (by decide) (by decide)

set_option maxRecDepth 1000000 in
/-- Claim C6: the end-to-end example — a text holding the tabular
`PO NO PO DATE GR NO GR DATE` row, `Invoice No: A1001` and
`TOTAL: 1,000.00` yields exactly one invoice record with
invoice number `A1001`, PO number `1234567890`, GR id `7654321`,
subtotal 1000, tax 120, grand total 1120 and status `UnPaid`. -/
theorem table_example_end_to_end :
    (processText startStore
        "Invoice No: A1001\nPO NO PO DATE GR NO GR DATE\n1234567890 01-Jan-24 7654321 05-Jan-24\nTOTAL: 1,000.00\n").inv =
      [⟨1, "A1001", "", "1234567890", "01-Jan-2024", "N/A", "7654321",
        "05-Jan-2024", 1000, 120, 1120, "UnPaid"⟩] := by
  with_unfolding_all decide

set_option maxRecDepth 1000000 in
/-- Claim C9 as written is false for the Invoice branch: the text
`"invoice\ninvoice no"` is classified Invoice and no field is
extracted from it, yet `parse_invoice_data` still returns a non-empty
dictionary (the unconditional `UnPaid` status), so a record IS appended
and no error is recorded. -/
theorem unparsable_invoice_counterexample :
    classifyDoc "invoice\ninvoice no" = DocType.Invoice ∧
      extractInvoiceFields ("invoice\ninvoice no".toList) = emptyPD ∧
      (processText startStore "invoice\ninvoice no").inv.length = 1 ∧
      (processText startStore "invoice\ninvoice no").errors = [] := by
  with_unfolding_all decide

/-- Claim C9, amended: a document classified PurchaseOrder from which
no PO number is extracted is skipped with an error recorded; a document
classified Invoice is never treated as unparsable, because
`parse_invoice_data` always returns a dictionary containing at least
the `UnPaid` status. -/
theorem unparsable_doc_amended :
    (∀ (s : Store) (text : String),
      classifyDoc text = DocType.PurchaseOrder → parsePoData text = none →
        (processText s text).po = s.po ∧ (processText s text).inv = s.inv ∧
          (processText s text).errors = s.errors ++ ["Failed to parse PO data"]) ∧
      ∀ text : String, (parseInvoiceData text).isSome = true := by
  constructor
  · intro s text hc hp
    simp [processText, hc, hp]
  · intro text
    have hst : (applyDerivation (extractInvoiceFields text.toList)).status =
        some "UnPaid" := rfl
    have hne : applyDerivation (extractInvoiceFields text.toList) ≠ emptyPD := by
      intro h
      rw [h] at hst
      exact absurd hst (by simp [emptyPD])
    unfold parseInvoiceData
    rw [if_neg hne]
    rfl

set_option maxRecDepth 1000000 in
/-- Witness for amended C9: a PO-classified text with no PO number is
skipped with an error; an arbitrary text still invoice-parses to
something. -/
theorem unparsable_doc_amended_witness :
    ((processText startStore "purchase order for office chairs").po =
        startStore.po ∧
      (processText startStore "purchase order for office chairs").inv =
        startStore.inv ∧
      (processText startStore "purchase order for office chairs").errors =
        startStore.errors ++ ["Failed to parse PO data"]) ∧
      (parseInvoiceData "x").isSome = true :=
  ⟨unparsable_doc_amended.1 startStore "purchase order for office chairs"
      (by with_unfolding_all decide) (by with_unfolding_all decide),
    unparsable_doc_amended.2 "x"⟩

/-! ### Lemmas about `_parse_date` on its own canonical output (C8) -/

lemma dChar_facts (k : Nat) (h : k < 10) :
    (dChar k).isDigit = true ∧ dval (dChar k) = k ∧ dChar k ≠ '-' ∧
      dChar k ≠ '/' ∧ dChar k ≠ ' ' := by
  interval_cases k <;>
    exact ⟨by decide, by decide, by decide, by decide, by decide⟩

lemma num2Cand_pad2 (lo hi v : Nat) (hv : v ≤ 99) (h1 : lo ≤ v) (h2 : v ≤ hi)
    (rest : List Char) : num2Cand lo hi (pad2 v ++ rest) = some (v, rest) := by
  obtain ⟨ha1, ha2, -, -, -⟩ := dChar_facts (v / 10) (by omega)
  obtain ⟨hb1, hb2, -, -, -⟩ := dChar_facts (v % 10) (by omega)
  show num2Cand lo hi (dChar (v / 10) :: dChar (v % 10) :: rest) = some (v, rest)
  simp only [num2Cand, ha1, hb1, ha2, hb2, Bool.and_self, if_true]
  have hvv : 10 * (v / 10) + v % 10 = v := by omega
  rw [hvv]
  simp [h1, h2]

lemma num1Cand_pad2_ge10 (lo hi v : Nat) (hv : v ≤ 99) (h10 : 10 ≤ v)
    (h1 : lo ≤ v / 10) (h2 : v / 10 ≤ hi) (rest : List Char) :
    num1Cand lo hi (pad2 v ++ rest) = some (v / 10, dChar (v % 10) :: rest) := by
  obtain ⟨ha1, ha2, -, -, -⟩ := dChar_facts (v / 10) (by omega)
  show num1Cand lo hi (dChar (v / 10) :: dChar (v % 10) :: rest) = _
  simp only [num1Cand, ha1, ha2]
  simp [h1, h2]

lemma num1Cand_pad2_lt10 (hi v : Nat) (hlt : v < 10) (rest : List Char) :
    num1Cand 1 hi (pad2 v ++ rest) = none := by
  obtain ⟨ha1, ha2, -, -, -⟩ := dChar_facts (v / 10) (by omega)
  show num1Cand 1 hi (dChar (v / 10) :: dChar (v % 10) :: rest) = none
  simp only [num1Cand, ha1, ha2]
  have h0 : ¬(1 ≤ v / 10) := by omega
  simp [h0]

lemma spDayCand_pad2 (v : Nat) (hv : v ≤ 99) (rest : List Char) :
    spDayCand (pad2 v ++ rest) = none := by
  obtain ⟨-, -, -, -, hsp⟩ := dChar_facts (v / 10) (by omega)
  show spDayCand (dChar (v / 10) :: dChar (v % 10) :: rest) = none
  simp only [spDayCand]
  simp [hsp]

lemma mdays_le (y m : Nat) : mdays y m ≤ 31 := by
  unfold mdays
  split_ifs <;> omega

lemma validDateB_elim {y m d : Nat} (h : validDateB y m d = true) :
    1 ≤ y ∧ y ≤ 9999 ∧ 1 ≤ m ∧ m ≤ 12 ∧ 1 ≤ d ∧ d ≤ mdays y m := by
  have := of_decide_eq_true h
  exact this

lemma monCandsAbb_monthAbb (m : Nat) (h1 : 1 ≤ m) (h2 : m ≤ 12)
    (rest : List Char) : monCandsAbb (monthAbb m ++ rest) = [(m, rest)] := by
  interval_cases m <;> rfl

lemma monCandsNum_monthAbb (m : Nat) (h1 : 1 ≤ m) (h2 : m ≤ 12)
    (rest : List Char) : monCandsNum (monthAbb m ++ rest) = [] := by
  interval_cases m <;> rfl

lemma monthAbb_ne_dash (m : Nat) (h1 : 1 ≤ m) (h2 : m ≤ 12) :
    ∀ c rest, monthAbb m = c :: rest → c ≠ '-' ∧ c ≠ '/' := by
  interval_cases m <;> intro c rest hc <;> cases hc <;> exact ⟨by decide, by decide⟩

lemma yearChars_ge1000 (y : Nat) (h : 1000 ≤ y) :
    yearChars y =
      [dChar (y / 1000), dChar (y / 100 % 10), dChar (y / 10 % 10), dChar (y % 10)] := by
  unfold yearChars
  rw [if_pos h]

lemma yearChars_100_999 (y : Nat) (h1 : 100 ≤ y) (h2 : y ≤ 999) :
    yearChars y = [dChar (y / 100), dChar (y / 10 % 10), dChar (y % 10)] := by
  unfold yearChars
  rw [if_neg (by omega), if_pos h1]

lemma yearChars_lt10 (y : Nat) (h : y < 10) : yearChars y = [dChar y] := by
  unfold yearChars
  rw [if_neg (by omega), if_neg (by omega), if_neg (by omega)]

lemma y2Cands_ge1000 (y : Nat) (h1 : 1000 ≤ y) (h2 : y ≤ 9999) :
    y2Cands (yearChars y) =
      [(yyMap (y / 100), [dChar (y / 10 % 10), dChar (y % 10)])] := by
  have hsplit : yearChars y = pad2 (y / 100) ++ [dChar (y / 10 % 10), dChar (y % 10)] := by
    rw [yearChars_ge1000 y h1]
    show _ = [dChar (y / 100 / 10), dChar (y / 100 % 10)] ++ _
    have hd : y / 100 / 10 = y / 1000 := by
      rw [Nat.div_div_eq_div_mul]
    rw [hd]
    rfl
  rw [hsplit]
  unfold y2Cands
  rw [num2Cand_pad2 0 99 (y / 100) (by omega) (by omega) (by omega)]
  rfl

lemma y2Cands_100_999 (y : Nat) (h1 : 100 ≤ y) (h2 : y ≤ 999) :
    y2Cands (yearChars y) = [(yyMap (y / 10), [dChar (y % 10)])] := by
  have hsplit : yearChars y = pad2 (y / 10) ++ [dChar (y % 10)] := by
    rw [yearChars_100_999 y h1 h2]
    show _ = [dChar (y / 10 / 10), dChar (y / 10 % 10)] ++ _
    have hd : y / 10 / 10 = y / 100 := by
      rw [Nat.div_div_eq_div_mul]
    rw [hd]
    rfl
  rw [hsplit]
  unfold y2Cands
  rw [num2Cand_pad2 0 99 (y / 10) (by omega) (by omega) (by omega)]
  rfl

lemma y2Cands_lt10 (y : Nat) (h : y < 10) : y2Cands (yearChars y) = [] := by
  rw [yearChars_lt10 y h]
  rfl

lemma y4Cands_ge1000 (y : Nat) (h1 : 1000 ≤ y) (h2 : y ≤ 9999) :
    y4Cands (yearChars y) = [(y, [])] := by
  rw [yearChars_ge1000 y h1]
  obtain ⟨ha1, ha2, -, -, -⟩ := dChar_facts (y / 1000) (by omega)
  obtain ⟨hb1, hb2, -, -, -⟩ := dChar_facts (y / 100 % 10) (by omega)
  obtain ⟨hc1, hc2, -, -, -⟩ := dChar_facts (y / 10 % 10) (by omega)
  obtain ⟨he1, he2, -, -, -⟩ := dChar_facts (y % 10) (by omega)
  unfold y4Cands
  simp only [numKAux, ha1, hb1, hc1, he1, ha2, hb2, hc2, he2, if_true]
  have hy : ((((0 * 10 + y / 1000) * 10 + y / 100 % 10) * 10 + y / 10 % 10) * 10 +
      y % 10) = y := by omega
  rw [hy]
  rfl

lemma y4Cands_100_999 (y : Nat) (h1 : 100 ≤ y) (h2 : y ≤ 999) :
    y4Cands (yearChars y) = [] := by
  rw [yearChars_100_999 y h1 h2]
  obtain ⟨ha1, -, -, -, -⟩ := dChar_facts (y / 100) (by omega)
  obtain ⟨hb1, -, -, -, -⟩ := dChar_facts (y / 10 % 10) (by omega)
  obtain ⟨hc1, -, -, -, -⟩ := dChar_facts (y % 10) (by omega)
  unfold y4Cands
  simp only [numKAux, ha1, hb1, hc1, if_true]
  rfl

lemma y4Cands_lt10 (y : Nat) (h : y < 10) : y4Cands (yearChars y) = [] := by
  rw [yearChars_lt10 y h]
  obtain ⟨ha1, -, -, -, -⟩ := dChar_facts y (by omega)
  unfold y4Cands
  simp only [numKAux, ha1, if_true]
  rfl

lemma sepThen_cons_eq (sep : Char) (k : List Char → Option (Nat × Nat × Nat × List Char))
    (r : List Char) : sepThen sep k (sep :: r) = k r := by
  simp [sepThen]

lemma sepThen_cons_ne (sep c : Char) (k : List Char → Option (Nat × Nat × Nat × List Char))
    (r : List Char) (h : c ≠ sep) : sepThen sep k (c :: r) = none := by
  simp [sepThen, h]

lemma matchChain_abb_dash (y4 : Bool) (y m d : Nat) (hv : validDateB y m d = true) :
    matchChain true y4 '-' (canonicalFmt y m d) =
      match (if y4 then y4Cands (yearChars y) else y2Cands (yearChars y)).head? with
      | some yc => some (d, m, yc.1, yc.2)
      | none => none := by
  obtain ⟨hy1, hy9, hm1, hm12, hd1, hdm⟩ := validDateB_elim hv
  have hd31 : d ≤ 31 := le_trans hdm (mdays_le y m)
  have hd99 : d ≤ 99 := by omega
  have hcan : canonicalFmt y m d =
      pad2 d ++ '-' :: (monthAbb m ++ '-' :: yearChars y) := rfl
  rw [hcan]
  unfold matchChain
  have hdc : dayCands (pad2 d ++ '-' :: (monthAbb m ++ '-' :: yearChars y)) =
      (d, '-' :: (monthAbb m ++ '-' :: yearChars y)) ::
        ((num1Cand 1 9 (pad2 d ++ '-' :: (monthAbb m ++ '-' :: yearChars y))).toList ++
          (spDayCand (pad2 d ++ '-' :: (monthAbb m ++ '-' :: yearChars y))).toList) := by
    unfold dayCands
    rw [num2Cand_pad2 1 31 d hd99 hd1 hd31]
    rfl
  rw [hdc, List.findSome?_cons]
  simp only [sepThen_cons_eq, if_true]
  rw [monCandsAbb_monthAbb m hm1 hm12, List.findSome?_cons]
  simp only [sepThen_cons_eq, List.findSome?_nil]
  rcases hY : (if y4 then y4Cands (yearChars y) else y2Cands (yearChars y)).head? with _ | yc
  · simp only [hY]
    rw [spDayCand_pad2 d hd99]
    rcases Nat.lt_or_ge d 10 with hd10 | hd10
    · rw [num1Cand_pad2_lt10 9 d hd10]
      rfl
    · rw [num1Cand_pad2_ge10 1 9 d hd99 hd10 (by omega) (by omega)]
      obtain ⟨-, -, hnd, -, -⟩ := dChar_facts (d % 10) (by omega)
      simp only [Option.toList, List.nil_append, List.cons_append,
        List.findSome?_cons, List.findSome?_nil]
      rw [sepThen_cons_ne _ _ _ _ hnd]
  · simp only [hY]

lemma matchChain_num_dash (y4 : Bool) (y m d : Nat) (hv : validDateB y m d = true) :
    matchChain false y4 '-' (canonicalFmt y m d) = none := by
  obtain ⟨hy1, hy9, hm1, hm12, hd1, hdm⟩ := validDateB_elim hv
  have hd31 : d ≤ 31 := le_trans hdm (mdays_le y m)
  have hd99 : d ≤ 99 := by omega
  have hcan : canonicalFmt y m d =
      pad2 d ++ '-' :: (monthAbb m ++ '-' :: yearChars y) := rfl
  rw [hcan]
  unfold matchChain
  have hdc : dayCands (pad2 d ++ '-' :: (monthAbb m ++ '-' :: yearChars y)) =
      (d, '-' :: (monthAbb m ++ '-' :: yearChars y)) ::
        ((num1Cand 1 9 (pad2 d ++ '-' :: (monthAbb m ++ '-' :: yearChars y))).toList ++
          (spDayCand (pad2 d ++ '-' :: (monthAbb m ++ '-' :: yearChars y))).toList) := by
    unfold dayCands
    rw [num2Cand_pad2 1 31 d hd99 hd1 hd31]
    rfl
  rw [hdc, List.findSome?_cons]
  simp only [sepThen_cons_eq, Bool.false_eq_true, if_false]
  rw [monCandsNum_monthAbb m hm1 hm12]
  simp only [List.findSome?_nil]
  rw [spDayCand_pad2 d hd99]
  rcases Nat.lt_or_ge d 10 with hd10 | hd10
  · rw [num1Cand_pad2_lt10 9 d hd10]
    rfl
  · rw [num1Cand_pad2_ge10 1 9 d hd99 hd10 (by omega) (by omega)]
    obtain ⟨-, -, hnd, -, -⟩ := dChar_facts (d % 10) (by omega)
    simp only [Option.toList, List.nil_append, List.cons_append,
      List.findSome?_cons, List.findSome?_nil]
    rw [sepThen_cons_ne _ _ _ _ hnd]

lemma matchChain_slash (ma y4 : Bool) (y m d : Nat) (hv : validDateB y m d = true) :
    matchChain ma y4 '/' (canonicalFmt y m d) = none := by
  obtain ⟨hy1, hy9, hm1, hm12, hd1, hdm⟩ := validDateB_elim hv
  have hd31 : d ≤ 31 := le_trans hdm (mdays_le y m)
  have hd99 : d ≤ 99 := by omega
  have hcan : canonicalFmt y m d =
      pad2 d ++ '-' :: (monthAbb m ++ '-' :: yearChars y) := rfl
  rw [hcan]
  unfold matchChain
  have hdc : dayCands (pad2 d ++ '-' :: (monthAbb m ++ '-' :: yearChars y)) =
      (d, '-' :: (monthAbb m ++ '-' :: yearChars y)) ::
        ((num1Cand 1 9 (pad2 d ++ '-' :: (monthAbb m ++ '-' :: yearChars y))).toList ++
          (spDayCand (pad2 d ++ '-' :: (monthAbb m ++ '-' :: yearChars y))).toList) := by
    unfold dayCands
    rw [num2Cand_pad2 1 31 d hd99 hd1 hd31]
    rfl
  rw [hdc, List.findSome?_cons]
  rw [show sepThen '/' (fun r1 =>
      (if ma then monCandsAbb r1 else monCandsNum r1).findSome? fun mc =>
        sepThen '/' (fun r2 =>
          match (if y4 then y4Cands r2 else y2Cands r2).head? with
          | some yc => some (d, mc.1, yc.1, yc.2)
          | none => none) mc.2) ('-' :: (monthAbb m ++ '-' :: yearChars y)) = none
    from sepThen_cons_ne _ _ _ _ (by decide)]
  rw [spDayCand_pad2 d hd99]
  rcases Nat.lt_or_ge d 10 with hd10 | hd10
  · rw [num1Cand_pad2_lt10 9 d hd10]
    rfl
  · rw [num1Cand_pad2_ge10 1 9 d hd99 hd10 (by omega) (by omega)]
    obtain ⟨-, -, -, hnd, -⟩ := dChar_facts (d % 10) (by omega)
    simp only [Option.toList, List.nil_append, List.cons_append,
      List.findSome?_cons, List.findSome?_nil]
    rw [sepThen_cons_ne _ _ _ _ hnd]

lemma strpFmt_of_chain_none {ma y4 : Bool} {sep : Char} {cs : List Char}
    (h : matchChain ma y4 sep cs = none) : strpFmt ma y4 sep cs = none := by
  unfold strpFmt
  rw [h]

lemma strpFmt_of_chain_rest_ne {ma y4 : Bool} {sep : Char} {cs : List Char}
    {d m v : Nat} {c : Char} {r : List Char}
    (h : matchChain ma y4 sep cs = some (d, m, v, c :: r)) :
    strpFmt ma y4 sep cs = none := by
  unfold strpFmt
  rw [h]
  dsimp only
  rw [if_neg (by simp)]

lemma strpFmt_of_chain_done {ma y4 : Bool} {sep : Char} {cs : List Char}
    {d m v : Nat} (h : matchChain ma y4 sep cs = some (d, m, v, []))
    (hv : validDateB v m d = true) : strpFmt ma y4 sep cs = some (v, m, d) := by
  unfold strpFmt
  rw [h]
  dsimp only
  rw [if_pos ⟨rfl, hv⟩]

lemma strptimeList_canonical_ge1000 (y m d : Nat) (hv : validDateB y m d = true)
    (hy : 1000 ≤ y) : strptimeList (canonicalFmt y m d) = some (y, m, d) := by
  obtain ⟨hy1, hy9, hrest⟩ := validDateB_elim hv
  have h1 : strpFmt true false '-' (canonicalFmt y m d) = none := by
    apply strpFmt_of_chain_rest_ne
    rw [matchChain_abb_dash false y m d hv]
    rw [show (if false then y4Cands (yearChars y) else y2Cands (yearChars y)) =
      y2Cands (yearChars y) from rfl]
    rw [y2Cands_ge1000 y hy hy9]
    rfl
  have h2 : strpFmt true true '-' (canonicalFmt y m d) = some (y, m, d) := by
    apply strpFmt_of_chain_done _ hv
    rw [matchChain_abb_dash true y m d hv]
    rw [show (if true then y4Cands (yearChars y) else y2Cands (yearChars y)) =
      y4Cands (yearChars y) from rfl]
    rw [y4Cands_ge1000 y hy hy9]
    rfl
  unfold strptimeList dateFormats
  rw [List.findSome?_cons]
  dsimp only
  rw [h1, List.findSome?_cons]
  dsimp only
  rw [h2]

lemma strptimeList_canonical_none (y m d : Nat) (hv : validDateB y m d = true)
    (hy : y < 10 ∨ (100 ≤ y ∧ y ≤ 999)) :
    strptimeList (canonicalFmt y m d) = none := by
  have hy2 : y2Cands (yearChars y) = [] ∨
      ∃ v c, y2Cands (yearChars y) = [(v, [c])] := by
    rcases hy with hy | hy
    · exact Or.inl (y2Cands_lt10 y hy)
    · exact Or.inr ⟨yyMap (y / 10), dChar (y % 10), y2Cands_100_999 y hy.1 hy.2⟩
  have hy4 : y4Cands (yearChars y) = [] := by
    rcases hy with hy | hy
    · exact y4Cands_lt10 y hy
    · exact y4Cands_100_999 y hy.1 hy.2
  have h1 : strpFmt true false '-' (canonicalFmt y m d) = none := by
    rcases hy2 with hn | ⟨v, c, hc⟩
    · apply strpFmt_of_chain_none
      rw [matchChain_abb_dash false y m d hv]
      rw [show (if false then y4Cands (yearChars y) else y2Cands (yearChars y)) =
        y2Cands (yearChars y) from rfl, hn]
      rfl
    · apply strpFmt_of_chain_rest_ne
      rw [matchChain_abb_dash false y m d hv]
      rw [show (if false then y4Cands (yearChars y) else y2Cands (yearChars y)) =
        y2Cands (yearChars y) from rfl, hc]
      rfl
  have h2 : strpFmt true true '-' (canonicalFmt y m d) = none := by
    apply strpFmt_of_chain_none
    rw [matchChain_abb_dash true y m d hv]
    rw [show (if true then y4Cands (yearChars y) else y2Cands (yearChars y)) =
      y4Cands (yearChars y) from rfl, hy4]
    rfl
  have h3 : strpFmt true false '/' (canonicalFmt y m d) = none :=
    strpFmt_of_chain_none (matchChain_slash true false y m d hv)
  have h4 : strpFmt true true '/' (canonicalFmt y m d) = none :=
    strpFmt_of_chain_none (matchChain_slash true true y m d hv)
  have h5 : strpFmt false false '-' (canonicalFmt y m d) = none :=
    strpFmt_of_chain_none (matchChain_num_dash false y m d hv)
  have h6 : strpFmt false true '-' (canonicalFmt y m d) = none :=
    strpFmt_of_chain_none (matchChain_num_dash true y m d hv)
  have h7 : strpFmt false false '/' (canonicalFmt y m d) = none :=
    strpFmt_of_chain_none (matchChain_slash false false y m d hv)
  have h8 : strpFmt false true '/' (canonicalFmt y m d) = none :=
    strpFmt_of_chain_none (matchChain_slash false true y m d hv)
  unfold strptimeList dateFormats
  rw [List.findSome?_cons]
  dsimp only
  rw [h1, List.findSome?_cons]
  dsimp only
  rw [h2, List.findSome?_cons]
  dsimp only
  rw [h3, List.findSome?_cons]
  dsimp only
  rw [h4, List.findSome?_cons]
  dsimp only
  rw [h5, List.findSome?_cons]
  dsimp only
  rw [h6, List.findSome?_cons]
  dsimp only
  rw [h7, List.findSome?_cons]
  dsimp only
  rw [h8, List.findSome?_nil]

lemma strpFmt_valid {ma y4 : Bool} {sep : Char} {cs : List Char} {y m d : Nat}
    (h : strpFmt ma y4 sep cs = some (y, m, d)) : validDateB y m d = true := by
  unfold strpFmt at h
  rcases hm : matchChain ma y4 sep cs with _ | ⟨d', m', y', rest⟩
  · rw [hm] at h
    exact absurd h (by simp)
  · rw [hm] at h
    dsimp only at h
    by_cases hg : rest = [] ∧ validDateB y' m' d' = true
    · rw [if_pos hg] at h
      obtain ⟨e1, e2, e3⟩ : y' = y ∧ m' = m ∧ d' = d := by
        simpa [Prod.ext_iff] using Option.some.inj h
      subst e1
      subst e2
      subst e3
      exact hg.2
    · rw [if_neg hg] at h
      exact absurd h (by simp)

lemma strptimeList_valid {cs : List Char} {y m d : Nat}
    (h : strptimeList cs = some (y, m, d)) : validDateB y m d = true := by
  obtain ⟨f, hf, hs⟩ := List.exists_of_findSome?_eq_some h
  exact strpFmt_valid hs

/-- Claim C8, amended: `_parse_date` is idempotent on its canonical
output for every parseable date string whose parsed year is not
10–99 (a year rendered with exactly two digits re-parses under the
two-digit-year format and shifts), and every string matching no
supported format is returned unchanged. -/
theorem normalize_date_idempotent_amended :
    (∀ (s : String) (y m d : Nat), strptimeList s.toList = some (y, m, d) →
        ¬(10 ≤ y ∧ y ≤ 99) → parseDate (parseDate s) = parseDate s) ∧
      ∀ s : String, strptimeList s.toList = none → parseDate s = s := by
  constructor
  · intro s y m d h hy
    have hv := strptimeList_valid h
    have h1 : parseDate s = String.mk (canonicalFmt y m d) := by
      unfold parseDate parseDateL
      rw [h]
    rcases Nat.lt_or_ge y 1000 with hlt | hge
    · have hnone : strptimeList (canonicalFmt y m d) = none :=
        strptimeList_canonical_none y m d hv (by omega)
      rw [h1]
      show String.mk (parseDateL (String.mk (canonicalFmt y m d)).toList) = _
      show String.mk (parseDateL (canonicalFmt y m d)) = _
      unfold parseDateL
      rw [hnone]
    · have hsome : strptimeList (canonicalFmt y m d) = some (y, m, d) :=
        strptimeList_canonical_ge1000 y m d hv hge
      rw [h1]
      show String.mk (parseDateL (String.mk (canonicalFmt y m d)).toList) = _
      show String.mk (parseDateL (canonicalFmt y m d)) = _
      unfold parseDateL
      rw [hsome]
  · intro s h
    show String.mk (parseDateL s.toList) = s
    unfold parseDateL
    rw [h]
    rfl

/-- Claim C8 as written is false: `"05-Jan-0099"` parses under the
supported `%d-%b-%Y` format (year 99), is canonicalized to
`"05-Jan-99"`, and that output re-parses under `%d-%b-%y` as 1999 —
so normalizing twice gives `"05-Jan-1999"`, not a fixed point. -/
theorem normalize_date_counterexample :
    (strptimeList ("05-Jan-0099" : String).toList).isSome = true ∧
      parseDate (parseDate "05-Jan-0099") ≠ parseDate "05-Jan-0099" := by
  decide

/-- Witness for amended C8: a parseable four-digit-pivot date and an
unparseable string. -/
theorem normalize_date_idempotent_amended_witness :
    parseDate (parseDate "5/3/24") = parseDate "5/3/24" ∧
      parseDate "gibberish" = "gibberish" :=
  ⟨normalize_date_idempotent_amended.1 "5/3/24" 2024 3 5 (by decide) (by decide),
    normalize_date_idempotent_amended.2 "gibberish" (by decide)⟩

end InvoiceOCR
